import Mathlib

/-!
Verification of the duplex SSE session bridge of the coingecko-price-server
repository (src/app/main.py and src/app/sse.py), shallowly embedded in Lean.

Pure pieces of the Python source (the CoinGecko price logic, the tool
handlers, the global active_transport slot discipline, the POST ingress
handler) are translated directly.  Pieces that the source delegates to the
MCP SDK (the per-session dispatch loop started by mcp_server.run and the
session lookup inside SseServerTransport.handle_post_message) are not under
src/; those definitions are modelled from the spec and are marked as such in
their doc comments.
-/

/-- Error taxonomy of the spec (section 7). -/
inductive ErrCode where
  | SessionNotFound
  | MalformedMessage
  | CapabilityNotFound
  | InvalidParams
  | UpstreamUnavailable
  | InternalError
  | ResourceExhausted
  | Overloaded
deriving DecidableEq, Repr

/-- Python value that can appear as the token_id argument: a string, an
integer, or None.  This is the domain over which main.py's
`not token_id or not isinstance(token_id, str)` check is modelled. -/
inductive PyVal where
  | str (s : String)
  | int (n : Int)
  | pyNone
deriving DecidableEq, Repr

/-- Python truthiness of a PyVal: empty string, zero and None are falsy. -/
def PyVal.truthy : PyVal → Bool
  | PyVal.str s => !s.isEmpty
  | PyVal.int n => n != 0
  | PyVal.pyNone => false

/-- Whether the value is a Python str (isinstance(token_id, str)). -/
def PyVal.isString : PyVal → Bool
  | PyVal.str _ => true
  | _ => false

/-- Underlying string of a PyVal known to be a string. -/
def PyVal.strVal : PyVal → String
  | PyVal.str s => s
  | _ => ""

/-- Outcome of the outbound HTTP request to the CoinGecko API, as main.py
observes it: either a parsed JSON body in which the usd price for the
requested token is present or absent, or a raised
requests.exceptions.RequestException (connection failure, timeout, or a
raise_for_status error). -/
inductive FetchOutcome where
  | ok (priceUsd : Option Int)
  | requestError (msg : String)
deriving DecidableEq, Repr

/-- Python exceptions raised by get_coingecko_price_logic in main.py. -/
inductive PyExn where
  | valueError (msg : String)
  | connectionError (msg : String)
  | runtimeError (msg : String)
deriving DecidableEq, Repr

/-- Successful tool result: main.py returns
\x7b"content": [\x7b"type": "text", "text": ...\x7d]\x7d; the single text
payload is what varies, so it is what the embedding records. -/
structure ToolResult where
  text : String
deriving DecidableEq, Repr

/-- Result of running get_coingecko_price_logic: whether the outbound HTTP
request was issued, and the returned value or raised exception. -/
structure LogicOutcome where
  issuedHttp : Bool
  result : Except PyExn ToolResult
deriving Repr

/-- main.py get_coingecko_price_logic (lines 24-48).  The guard before the
try block raises ValueError when token_id is falsy or not a str, without
issuing any HTTP request.  Inside the try block, a RequestException is
re-raised as ConnectionError; every other exception (including the
ValueError raised when the parsed body lacks a usd price for the token) is
caught by the generic handler and re-raised as RuntimeError. -/
def get_coingecko_price_logic (token_id : PyVal) (fetch : String → FetchOutcome) :
    LogicOutcome :=
  if !token_id.truthy || !token_id.isString then
    { issuedHttp := false
      result := Except.error (PyExn.valueError "Invalid or missing token_id parameter.") }
  else
    match fetch token_id.strVal with
    | FetchOutcome.ok (some price) =>
        { issuedHttp := true
          result := Except.ok
            ⟨"The current price of " ++ token_id.strVal ++ " is $" ++
              toString price ++ " USD."⟩ }
    | FetchOutcome.ok none =>
        { issuedHttp := true
          result := Except.error (PyExn.runtimeError
            ("An unexpected error occurred: Could not find price data for token ID: " ++
              token_id.strVal)) }
    | FetchOutcome.requestError msg =>
        { issuedHttp := true
          result := Except.error (PyExn.connectionError
            ("CoinGecko API request failed: " ++ msg)) }

/-- Failure raised out of call_tool in main.py: the dedicated unknown-tool
ValueError of the else branch (lines 82-86), a pydantic validation failure
from CoinGeckoPriceInput(**arguments), or an exception re-raised from
get_coingecko_price_logic. -/
inductive ToolError where
  | unknownTool (toolName : String)
  | validationFailed (msg : String)
  | invocationError (e : PyExn)
deriving DecidableEq, Repr

/-- Result of running call_tool: whether the registered capability
(get_coingecko_price_logic) was entered, whether an outbound HTTP request
was issued, and the returned value or raised failure. -/
structure CallOutcome where
  invoked : Bool
  issuedHttp : Bool
  result : Except ToolError ToolResult
deriving Repr

/-- main.py call_tool (lines 71-86).  The arguments are modelled by the
value bound to the token_id key (none when the key is absent); pydantic
accepts exactly a str there.  Exceptions from validation or from the logic
are re-raised unchanged (line 81); an unrecognized tool name raises the
unknown-tool ValueError without invoking any capability. -/
def call_tool (toolName : String) (args : Option PyVal)
    (fetch : String → FetchOutcome) : CallOutcome :=
  if toolName = "get_coingecko_price" then
    match args with
    | some (PyVal.str s) =>
        let out := get_coingecko_price_logic (PyVal.str s) fetch
        { invoked := true
          issuedHttp := out.issuedHttp
          result :=
            match out.result with
            | Except.ok r => Except.ok r
            | Except.error e => Except.error (ToolError.invocationError e) }
    | _ =>
        { invoked := false
          issuedHttp := false
          result := Except.error (ToolError.validationFailed
            "Input should be a valid string") }
  else
    { invoked := false
      issuedHttp := false
      result := Except.error (ToolError.unknownTool toolName) }

/-- JSON value, used for the tool definition dictionaries that listTools
returns. -/
inductive Json where
  | str (s : String)
  | arr (xs : List Json)
  | obj (fields : List (String × Json))

/-- Keys of a JSON object (empty for non-objects). -/
def Json.keys : Json → List String
  | Json.obj fields => fields.map Prod.fst
  | _ => []

/-- Value bound to a key in a JSON object. -/
def Json.lookupKey : Json → String → Option Json
  | Json.obj fields, key => lookupField fields key
  | _, _ => Option.none
where
  lookupField : List (String × Json) → String → Option Json
  | [], _ => Option.none
  | (k, v) :: rest, key => if k = key then some v else lookupField rest key

/-- JSON schema produced by CoinGeckoPriceInput.model_json_schema() in
main.py: one required string property token_id carrying the field
description from the pydantic model (lines 20-21). -/
def CoinGeckoPriceInput_model_json_schema : Json :=
  Json.obj [
    ("properties", Json.obj [
      ("token_id", Json.obj [
        ("description", Json.str
          "The CoinGecko ID of the token (e.g., \x27bitcoin\x27, \x27ethereum\x27)."),
        ("title", Json.str "Token Id"),
        ("type", Json.str "string")])]),
    ("required", Json.arr [Json.str "token_id"]),
    ("title", Json.str "CoinGeckoPriceInput"),
    ("type", Json.str "object")]

/-- main.py coingecko_tool_definition (lines 52-56): the manually defined
tool dictionary used in the listTools response. -/
def coingecko_tool_definition : Json :=
  Json.obj [
    ("name", Json.str "get_coingecko_price"),
    ("description", Json.str
      "Get the current price of a cryptocurrency from CoinGecko using its ID."),
    ("inputSchema", CoinGeckoPriceInput_model_json_schema)]

/-- main.py list_tools (lines 65-69): returns the singleton list holding
the coingecko tool definition. -/
def list_tools : List Json :=
  [coingecko_tool_definition]

/-- Request message read from a Session's inbound queue: a list-capabilities
request or an invoke-capability request, each keyed by a correlation id.
The invoke arguments are modelled by the value bound to token_id
(none when the key is absent). -/
inductive Request where
  | listCapabilities (id : Nat)
  | invokeCapability (id : Nat) (toolName : String) (args : Option PyVal)

/-- Correlation id of a request. -/
def Request.reqId : Request → Nat
  | Request.listCapabilities id => id
  | Request.invokeCapability id _ _ => id

/-- Payload of a successful protocol response. -/
inductive Payload where
  | toolList (ts : List Json)
  | toolResult (r : ToolResult)

/-- Outbound protocol message: a response or an error notification, each
carrying the correlation id of the request it answers. -/
inductive Msg where
  | response (id : Nat) (payload : Payload)
  | errorNotification (id : Nat) (code : ErrCode) (message : String)

/-- Correlation id carried by an outbound message. -/
def Msg.correlationId : Msg → Nat
  | Msg.response id _ => id
  | Msg.errorNotification id _ _ => id

/-- Whether an outbound message is an error notification. -/
def Msg.isErrorNotification : Msg → Bool
  | Msg.errorNotification _ _ _ => true
  | _ => false

/-- Coarse error code assigned to an exception re-raised out of the
capability: the ConnectionError that main.py raises for a network failure
(requests.exceptions.RequestException) maps to UpstreamUnavailable, every
other exception to InternalError. -/
def exnCode : PyExn → ErrCode
  | PyExn.connectionError _ => ErrCode.UpstreamUnavailable
  | _ => ErrCode.InternalError

/-- Whether an exception marks a network failure: main.py raises
ConnectionError exactly when the outbound request raised
requests.exceptions.RequestException (line 43-45). -/
def PyExn.isNetworkFailure : PyExn → Bool
  | PyExn.connectionError _ => true
  | _ => false

/-- Human-readable message carried by an exception. -/
def exnMsg : PyExn → String
  | PyExn.valueError m => m
  | PyExn.connectionError m => m
  | PyExn.runtimeError m => m

/-- Modelled from the spec: the SDK decorator layer that converts a failure
raised out of call_tool into an ErrorNotification is not under src/.  Per
spec sections 4.4 and 7 (and the main.py comment that the unknown-tool
ValueError is converted to MethodNotFound), the wrapper preserves the
human-readable message, keeps the correlation id of the request, and
assigns CapabilityNotFound to the unknown-tool failure, InvalidParams to a
validation failure, UpstreamUnavailable to a network failure and
InternalError to every other exception. -/
def wrapError (id : Nat) : ToolError → Msg
  | ToolError.unknownTool n =>
      Msg.errorNotification id ErrCode.CapabilityNotFound ("Unknown tool: " ++ n)
  | ToolError.validationFailed m =>
      Msg.errorNotification id ErrCode.InvalidParams m
  | ToolError.invocationError e =>
      Msg.errorNotification id (exnCode e) (exnMsg e)

/-- Modelled from the spec: the per-session Protocol Dispatch Loop
(mcp_server.run, SDK code not under src/) handles one inbound request.  Per
spec section 4.4: a list-capabilities request is answered with the
registered descriptor table (main.py list_tools); an invoke-capability
request runs call_tool and a raised failure is wrapped by wrapError; every
produced message carries the inbound correlation id unchanged. -/
def handleRequest (fetch : String → FetchOutcome) : Request → Msg
  | Request.listCapabilities id =>
      Msg.response id (Payload.toolList list_tools)
  | Request.invokeCapability id toolName args =>
      match (call_tool toolName args fetch).result with
      | Except.ok r => Msg.response id (Payload.toolResult r)
      | Except.error e => wrapError id e

/-- Modelled from the spec: the Protocol Dispatch Loop (spec section 4.4)
pops requests from the inbound queue strictly in arrival order, handles
each one, and pushes the produced message onto the outbound queue; a
failure never terminates the loop, so the outbound stream is the pointwise
image of the inbound queue. -/
def dispatchLoop (fetch : String → FetchOutcome) (inbound : List Request) : List Msg :=
  inbound.map (handleRequest fetch)

/-- Events observed by the process-wide active_transport slot of main.py.
Transport instances are identified by a number; connect t is the GET /sse/
handler creating transport t (lines 96-103), cleanup t is the finally
block of that connection's event_stream (lines 117-123). -/
inductive TransportEvent where
  | connect (t : Nat)
  | cleanup (t : Nat)

/-- One step of the active_transport slot.  handle_sse_connection stores
the freshly created transport unconditionally (line 102:
active_transport = transport); the finally block clears the slot only when
it still holds this connection's own transport (lines 122-123:
if active_transport == transport: active_transport = None). -/
def stepTransport : Option Nat → TransportEvent → Option Nat
  | _, TransportEvent.connect t => some t
  | slot, TransportEvent.cleanup t => if slot = some t then Option.none else slot

/-- Contents of the active_transport slot after a sequence of connection
events, starting from a given slot value. -/
def runEvents (init : Option Nat) (events : List TransportEvent) : Option Nat :=
  events.foldl stepTransport init

/-- Session registry of one SseServerTransport: an association list from
session id to that session's inbound queue of requests. -/
def Registry : Type := List (String × List Request)

/-- Inbound queue registered under a session id, if any. -/
def lookupSession : Registry → String → Option (List Request)
  | [], _ => Option.none
  | (k, q) :: rest, sid => if k = sid then some q else lookupSession rest sid

/-- Appends a request to the inbound queue registered under a session id;
a registry without that id is left unchanged. -/
def enqueueSession : Registry → String → Request → Registry
  | [], _, _ => []
  | (k, q) :: rest, sid, m =>
      if k = sid then (k, q ++ [m]) :: rest
      else (k, q) :: enqueueSession rest sid m

/-- Length of the inbound queue registered under a session id (0 when the
id is unknown). -/
def queueLen (reg : Registry) (sid : String) : Nat :=
  match lookupSession reg sid with
  | Option.none => 0
  | some q => q.length

/-- Stream events the SSE writer emits for a session: the Dispatch Loop's
image of that session's inbound queue (empty for an unknown id). -/
def streamFor (fetch : String → FetchOutcome) (reg : Registry) (sid : String) : List Msg :=
  match lookupSession reg sid with
  | Option.none => []
  | some q => dispatchLoop fetch q

/-- Transport-level outcome of delivering one POSTed message. -/
inductive PostResult where
  | accepted
  | sessionNotFound
deriving DecidableEq, Repr

/-- Modelled from the spec: SseServerTransport.handle_post_message is SDK
code not under src/.  Per spec section 4.3, the handler resolves the target
session id through the registry; on a miss it reports the transport-level
SessionNotFound failure and enqueues nothing, on a hit it enqueues the
message onto that Session's inbound queue and acknowledges. -/
def transport_handle_post_message (reg : Registry) (sid : String) (m : Request) :
    Registry × PostResult :=
  match lookupSession reg sid with
  | Option.none => (reg, PostResult.sessionNotFound)
  | some _ => (enqueueSession reg sid m, PostResult.accepted)

/-- HTTP response returned by the POST /messages/ endpoint. -/
structure HttpResponse where
  status : Nat
  body : String
deriving DecidableEq, Repr

/-- main.py handle_post_message (lines 130-163).  With no active transport
the endpoint raises HTTPException(400) (lines 161-163).  Otherwise it
delegates to the active transport; an accepted message is answered with the
fixed acknowledgment Response(status_code=202, "Request processed via SSE")
(line 155), and a session miss surfaces the transport-level SessionNotFound
failure as a 404-class response. -/
def handle_post_message (active : Option Registry) (sid : String) (m : Request) :
    Option Registry × HttpResponse :=
  match active with
  | Option.none =>
      (Option.none,
        ⟨400, "No active SSE connection or transport cannot handle POST."⟩)
  | some reg =>
      match transport_handle_post_message reg sid m with
      | (regAfter, PostResult.accepted) =>
          (some regAfter, ⟨202, "Request processed via SSE"⟩)
      | (regAfter, PostResult.sessionNotFound) =>
          (some regAfter, ⟨404, "Could not find session"⟩)

/-- Fetch oracle for concrete runs: the CoinGecko request times out. -/
def fetchTimeout : String → FetchOutcome :=
  fun _ => FetchOutcome.requestError "timeout"

/-- Fetch oracle for concrete runs: the CoinGecko request succeeds. -/
def fetchOk : String → FetchOutcome :=
  fun _ => FetchOutcome.ok (some 50000)

/-- Helper: enqueueing onto a registered session id appends to exactly that
inbound queue. -/
theorem lookupSession_enqueueSession_self (reg : Registry) (sid : String)
    (m : Request) (q : List Request) (h : lookupSession reg sid = some q) :
    lookupSession (enqueueSession reg sid m) sid = some (q ++ [m]) := by
  induction reg with
  | nil => simp [lookupSession] at h
  | cons kv rest ih =>
    obtain ⟨k, qk⟩ := kv
    by_cases hk : k = sid
    · subst hk
      simp [lookupSession] at h
      simp [enqueueSession, lookupSession, h]
    · simp [lookupSession, hk] at h
      simp [enqueueSession, lookupSession, hk]
      exact ih h

/-- Helper: every message the dispatch loop produces carries the correlation
id of the request it answers. -/
theorem correlationId_handleRequest (fetch : String → FetchOutcome) (r : Request) :
    (handleRequest fetch r).correlationId = r.reqId := by
  cases r with
  | listCapabilities id => rfl
  | invokeCapability id toolName args =>
    cases hres : (call_tool toolName args fetch).result with
    | ok res => simp [handleRequest, hres, Msg.correlationId, Request.reqId]
    | error e =>
      cases e <;>
        simp [handleRequest, hres, wrapError, Msg.correlationId, Request.reqId]

/-- C1: the claim fails on the code.  main.py keeps a single process-wide
active_transport slot; after client 0 connects the slot holds transport 0,
and a second client connecting overwrites it with transport 1, silently
replacing the first client's transport (and with it the only route POSTed
messages have to that client's session). -/
theorem second_connect_replaces_global_slot :
    runEvents Option.none [TransportEvent.connect 0] = some 0 ∧
    runEvents Option.none
      [TransportEvent.connect 0, TransportEvent.connect 1] = some 1 ∧
    ((1 : Nat) == 0) = false :=
  ⟨rfl, rfl, rfl⟩

/-- C9: when an SSE connection's stream terminates, its cleanup clears the
global active_transport slot only if the slot still holds that connection's
own transport; if a newer connection has already installed its transport,
the old connection's teardown leaves it registered unchanged. -/
theorem cleanup_only_clears_own_transport (t1 t2 : Nat) (h : t1 ≠ t2) :
    runEvents Option.none
      [TransportEvent.connect t1, TransportEvent.connect t2,
        TransportEvent.cleanup t1] = some t2 ∧
    runEvents Option.none
      [TransportEvent.connect t1, TransportEvent.cleanup t1] = Option.none := by
  constructor
  · simp [runEvents, stepTransport, List.foldl, Ne.symm h]
  · simp [runEvents, stepTransport, List.foldl]

/-- Witness for C9 at transports 0 and 1. -/
theorem cleanup_only_clears_own_transport_witness :
    runEvents Option.none
      [TransportEvent.connect 0, TransportEvent.connect 1,
        TransportEvent.cleanup 0] = some 1 ∧
    runEvents Option.none
      [TransportEvent.connect 0, TransportEvent.cleanup 0] = Option.none :=
  cleanup_only_clears_own_transport 0 1 (by decide)

/-- C2: a message POSTed to a session id that the registry does not know
(unknown, or already closed and hence evicted) is answered with the
SessionNotFound transport failure and enqueues nothing: the registry is
unchanged, every queue length is unchanged, and the stream of every session
is unchanged, so no stream event is ever emitted for that message. -/
theorem post_unknown_session_rejected (reg : Registry) (sid : String) (m : Request)
    (s : String) (fetch : String → FetchOutcome)
    (h : lookupSession reg sid = Option.none) :
    transport_handle_post_message reg sid m = (reg, PostResult.sessionNotFound) ∧
    queueLen (transport_handle_post_message reg sid m).1 s = queueLen reg s ∧
    streamFor fetch (transport_handle_post_message reg sid m).1 s =
      streamFor fetch reg s := by
  have he : transport_handle_post_message reg sid m =
      (reg, PostResult.sessionNotFound) := by
    simp [transport_handle_post_message, h]
  exact ⟨he, by rw [he], by rw [he]⟩

/-- Witness for C2: a registry holding one open session s1, POSTed with the
different session id s9. -/
theorem post_unknown_session_rejected_witness :
    transport_handle_post_message [("s1", [])] "s9" (Request.listCapabilities 1) =
      ([("s1", [])], PostResult.sessionNotFound) ∧
    queueLen
      (transport_handle_post_message [("s1", [])] "s9"
        (Request.listCapabilities 1)).1 "s1" = queueLen [("s1", [])] "s1" ∧
    streamFor fetchOk
      (transport_handle_post_message [("s1", [])] "s9"
        (Request.listCapabilities 1)).1 "s1" =
      streamFor fetchOk [("s1", [])] "s1" :=
  post_unknown_session_rejected [("s1", [])] "s9" (Request.listCapabilities 1)
    "s1" fetchOk (by simp [lookupSession])

/-- C8: listing capabilities returns exactly the registered descriptor set,
namely the single get_coingecko_price definition; the entry carries the
name, description and inputSchema keys and nothing else, so the invoke
function (get_coingecko_price_logic) and other invocation internals are
never exposed. -/
theorem list_tools_returns_exact_registered_set :
    list_tools = [coingecko_tool_definition] ∧
    coingecko_tool_definition.keys = ["name", "description", "inputSchema"] ∧
    coingecko_tool_definition.lookupKey "name" =
      some (Json.str "get_coingecko_price") ∧
    coingecko_tool_definition.lookupKey "inputSchema" =
      some CoinGeckoPriceInput_model_json_schema ∧
    (coingecko_tool_definition.keys.contains "invoke") = false :=
  ⟨rfl, rfl, rfl, rfl, rfl⟩

/-- C10: get_coingecko_price_logic raises ValueError without issuing any
outbound HTTP request whenever token_id is the empty string or not a
string at all; consequently the CoinGecko API call is attempted only when
token_id is a non-empty string. -/
theorem invalid_token_rejected_without_http (tok : PyVal)
    (fetch : String → FetchOutcome)
    (h : tok = PyVal.str "" ∨ ∀ s, tok ≠ PyVal.str s) :
    (get_coingecko_price_logic tok fetch).issuedHttp = false ∧
    (get_coingecko_price_logic tok fetch).result =
      Except.error (PyExn.valueError "Invalid or missing token_id parameter.") := by
  have hcond : (!tok.truthy || !tok.isString) = true := by
    rcases h with h | h
    · subst h
      rfl
    · cases tok with
      | str s => exact absurd rfl (h s)
      | int n => simp [PyVal.isString]
      | pyNone => rfl
  constructor
  · simp [get_coingecko_price_logic, hcond]
  · simp [get_coingecko_price_logic, hcond]

/-- Witness for C10 at the empty-string token id. -/
theorem invalid_token_rejected_without_http_witness :
    (get_coingecko_price_logic (PyVal.str "") fetchOk).issuedHttp = false ∧
    (get_coingecko_price_logic (PyVal.str "") fetchOk).result =
      Except.error (PyExn.valueError "Invalid or missing token_id parameter.") :=
  invalid_token_rejected_without_http (PyVal.str "") fetchOk (Or.inl rfl)

/-- C7: an invoke-capability request naming a capability other than the
registered get_coingecko_price is answered by an ErrorNotification with the
CapabilityNotFound code and the same correlation id, and no capability is
invoked (no outbound HTTP request is issued either). -/
theorem unknown_capability_not_invoked (fetch : String → FetchOutcome) (id : Nat)
    (toolName : String) (args : Option PyVal)
    (h : toolName ≠ "get_coingecko_price") :
    handleRequest fetch (Request.invokeCapability id toolName args) =
      Msg.errorNotification id ErrCode.CapabilityNotFound
        ("Unknown tool: " ++ toolName) ∧
    (call_tool toolName args fetch).invoked = false ∧
    (call_tool toolName args fetch).issuedHttp = false := by
  have hc : call_tool toolName args fetch =
      { invoked := false, issuedHttp := false
        result := Except.error (ToolError.unknownTool toolName) } := by
    simp [call_tool, h]
  refine ⟨?_, by rw [hc], by rw [hc]⟩
  simp [handleRequest, hc, wrapError]

/-- Witness for C7 at the unregistered capability name bogus_tool. -/
theorem unknown_capability_not_invoked_witness :
    handleRequest fetchOk (Request.invokeCapability 5 "bogus_tool"
        (some (PyVal.str "bitcoin"))) =
      Msg.errorNotification 5 ErrCode.CapabilityNotFound
        ("Unknown tool: " ++ "bogus_tool") ∧
    (call_tool "bogus_tool" (some (PyVal.str "bitcoin")) fetchOk).invoked = false ∧
    (call_tool "bogus_tool" (some (PyVal.str "bitcoin")) fetchOk).issuedHttp = false :=
  unknown_capability_not_invoked fetchOk 5 "bogus_tool" (some (PyVal.str "bitcoin"))
    (by decide)

/-- Helper: appending to a nonempty string yields a nonempty string. -/
theorem isEmpty_append_eq_false (a b : String) (ha : a.data ≠ []) :
    (a ++ b).isEmpty = false := by
  rw [← Bool.not_eq_true, String.isEmpty_iff]
  intro hc
  have hdata := congrArg String.data hc
  rw [String.data_append] at hdata
  rcases List.append_eq_nil.mp hdata with ⟨h1, _⟩
  exact ha h1

/-- Helper: a well-known invoke-capability request used by concrete runs. -/
def reqPriceBitcoin (id : Nat) : Request :=
  Request.invokeCapability id "get_coingecko_price" (some (PyVal.str "bitcoin"))

/-- C3: dispatch within one Session is strictly sequential: when request i
is submitted before request j (i < j), the stream event at position i is
exactly the handled request i and the one at position j is exactly the
handled request j, each carrying its own request's correlation id, so the
response to the earlier request is emitted on the stream strictly before
the response to the later one. -/
theorem responses_emitted_in_submission_order (fetch : String → FetchOutcome)
    (reqs : List Request) (i j : Nat) (hij : i < j) (hj : j < reqs.length) :
    i < j ∧
    (dispatchLoop fetch reqs).length = reqs.length ∧
    (dispatchLoop fetch reqs)[i]? = (reqs[i]?).map (handleRequest fetch) ∧
    (dispatchLoop fetch reqs)[j]? = (reqs[j]?).map (handleRequest fetch) ∧
    ((dispatchLoop fetch reqs)[i]?).map Msg.correlationId =
      (reqs[i]?).map Request.reqId ∧
    ((dispatchLoop fetch reqs)[j]?).map Msg.correlationId =
      (reqs[j]?).map Request.reqId := by
  have hmap : ∀ n : Nat,
      (dispatchLoop fetch reqs)[n]? = (reqs[n]?).map (handleRequest fetch) := by
    intro n
    simp [dispatchLoop]
  have hcorr : ∀ n : Nat,
      ((dispatchLoop fetch reqs)[n]?).map Msg.correlationId =
        (reqs[n]?).map Request.reqId := by
    intro n
    rw [hmap n]
    cases reqs[n]? with
    | none => rfl
    | some r => simp [correlationId_handleRequest]
  exact ⟨hij, by simp [dispatchLoop], hmap i, hmap j, hcorr i, hcorr j⟩

/-- Witness for C3: a two-request session where the price request precedes
the list-capabilities request. -/
theorem responses_emitted_in_submission_order_witness :
    0 < 1 ∧
    (dispatchLoop fetchOk [reqPriceBitcoin 1, Request.listCapabilities 2]).length =
      [reqPriceBitcoin 1, Request.listCapabilities 2].length ∧
    (dispatchLoop fetchOk [reqPriceBitcoin 1, Request.listCapabilities 2])[0]? =
      ([reqPriceBitcoin 1, Request.listCapabilities 2][0]?).map
        (handleRequest fetchOk) ∧
    (dispatchLoop fetchOk [reqPriceBitcoin 1, Request.listCapabilities 2])[1]? =
      ([reqPriceBitcoin 1, Request.listCapabilities 2][1]?).map
        (handleRequest fetchOk) ∧
    ((dispatchLoop fetchOk [reqPriceBitcoin 1, Request.listCapabilities 2])[0]?).map
        Msg.correlationId =
      ([reqPriceBitcoin 1, Request.listCapabilities 2][0]?).map Request.reqId ∧
    ((dispatchLoop fetchOk [reqPriceBitcoin 1, Request.listCapabilities 2])[1]?).map
        Msg.correlationId =
      ([reqPriceBitcoin 1, Request.listCapabilities 2][1]?).map Request.reqId :=
  responses_emitted_in_submission_order fetchOk
    [reqPriceBitcoin 1, Request.listCapabilities 2] 0 1 (by decide) (by decide)

/-- C4: an accepted POST is answered with the fixed transport-level
acknowledgment 202 "Request processed via SSE" (never the RPC result: the
body is a constant that does not depend on the fetch outcome); the message
is appended to the Session's inbound queue and the protocol-level result
appears only later as the final event of that Session's stream. -/
theorem post_ack_never_carries_result (reg : Registry) (sid : String) (m : Request)
    (q : List Request) (fetch : String → FetchOutcome)
    (h : lookupSession reg sid = some q) :
    handle_post_message (some reg) sid m =
      (some (enqueueSession reg sid m), ⟨202, "Request processed via SSE"⟩) ∧
    lookupSession (enqueueSession reg sid m) sid = some (q ++ [m]) ∧
    streamFor fetch (enqueueSession reg sid m) sid =
      streamFor fetch reg sid ++ [handleRequest fetch m] := by
  have henq := lookupSession_enqueueSession_self reg sid m q h
  refine ⟨?_, henq, ?_⟩
  · simp [handle_post_message, transport_handle_post_message, h]
  · simp [streamFor, h, henq, dispatchLoop]

/-- Witness for C4: a registry holding the open session s1 accepting a
list-capabilities request. -/
theorem post_ack_never_carries_result_witness :
    handle_post_message (some [("s1", [])]) "s1" (Request.listCapabilities 1) =
      (some (enqueueSession [("s1", [])] "s1" (Request.listCapabilities 1)),
        ⟨202, "Request processed via SSE"⟩) ∧
    lookupSession (enqueueSession [("s1", [])] "s1" (Request.listCapabilities 1))
        "s1" = some ([] ++ [Request.listCapabilities 1]) ∧
    streamFor fetchOk
        (enqueueSession [("s1", [])] "s1" (Request.listCapabilities 1)) "s1" =
      streamFor fetchOk [("s1", [])] "s1" ++
        [handleRequest fetchOk (Request.listCapabilities 1)] :=
  post_ack_never_carries_result [("s1", [])] "s1" (Request.listCapabilities 1) []
    fetchOk (by simp [lookupSession])

/-- C5: a failing capability invocation never terminates the Dispatch Loop:
with a failing request r1 anywhere in the inbound queue, the loop still
handles every request, the stream still carries r1's error notification at
r1's position followed directly by r2's response, and the loop runs through
the whole queue (its output length is the full queue length). -/
theorem failure_does_not_terminate_dispatch (fetch : String → FetchOutcome)
    (pre post : List Request) (r1 r2 : Request)
    (hfail : (handleRequest fetch r1).isErrorNotification = true) :
    dispatchLoop fetch (pre ++ r1 :: r2 :: post) =
      dispatchLoop fetch pre ++
        handleRequest fetch r1 :: handleRequest fetch r2 ::
          dispatchLoop fetch post ∧
    (dispatchLoop fetch (pre ++ r1 :: r2 :: post))[pre.length]? =
      some (handleRequest fetch r1) ∧
    (dispatchLoop fetch (pre ++ r1 :: r2 :: post))[pre.length + 1]? =
      some (handleRequest fetch r2) ∧
    (dispatchLoop fetch (pre ++ r1 :: r2 :: post)).length =
      pre.length + 2 + post.length := by
  have hsplit : dispatchLoop fetch (pre ++ r1 :: r2 :: post) =
      dispatchLoop fetch pre ++
        handleRequest fetch r1 :: handleRequest fetch r2 ::
          dispatchLoop fetch post := by
    simp [dispatchLoop]
  refine ⟨hsplit, ?_, ?_, ?_⟩
  · rw [hsplit, List.getElem?_append_right (by simp [dispatchLoop])]
    have hidx : pre.length - (dispatchLoop fetch pre).length = 0 := by
      simp only [dispatchLoop, List.length_map]
      omega
    rw [hidx]
    rfl
  · rw [hsplit, List.getElem?_append_right (by simp [dispatchLoop])]
    have hidx : pre.length + 1 - (dispatchLoop fetch pre).length = 1 := by
      simp only [dispatchLoop, List.length_map]
      omega
    rw [hidx]
    simp
  · simp only [dispatchLoop, List.length_map, List.length_append,
      List.length_cons]
    omega

/-- Witness for C5: the upstream request times out for request 1, and
request 2 on the same session is still processed and answered. -/
theorem failure_does_not_terminate_dispatch_witness :
    dispatchLoop fetchTimeout [reqPriceBitcoin 1, reqPriceBitcoin 2] =
      dispatchLoop fetchTimeout [] ++
        handleRequest fetchTimeout (reqPriceBitcoin 1) ::
          handleRequest fetchTimeout (reqPriceBitcoin 2) ::
            dispatchLoop fetchTimeout [] ∧
    (dispatchLoop fetchTimeout [reqPriceBitcoin 1, reqPriceBitcoin 2])[0]? =
      some (handleRequest fetchTimeout (reqPriceBitcoin 1)) ∧
    (dispatchLoop fetchTimeout [reqPriceBitcoin 1, reqPriceBitcoin 2])[1]? =
      some (handleRequest fetchTimeout (reqPriceBitcoin 2)) ∧
    (dispatchLoop fetchTimeout [reqPriceBitcoin 1, reqPriceBitcoin 2]).length = 2 :=
  failure_does_not_terminate_dispatch fetchTimeout [] [] (reqPriceBitcoin 1)
    (reqPriceBitcoin 2) (by decide)

/-- C6: when the capability invocation for an invoke request fails, the
produced message is an ErrorNotification with the request's correlation id
that carries the failure's own human-readable message (which is never
empty), and its coarse code is UpstreamUnavailable exactly when the failure
is a network failure (the ConnectionError raised from a RequestException)
and InternalError otherwise. -/
theorem invoke_failure_wrapped_with_code (fetch : String → FetchOutcome)
    (id : Nat) (s : String) (e : PyExn)
    (hfail : (get_coingecko_price_logic (PyVal.str s) fetch).result =
      Except.error e) :
    handleRequest fetch
        (Request.invokeCapability id "get_coingecko_price"
          (some (PyVal.str s))) =
      Msg.errorNotification id (exnCode e) (exnMsg e) ∧
    exnCode e =
      (if e.isNetworkFailure then ErrCode.UpstreamUnavailable
        else ErrCode.InternalError) ∧
    (exnMsg e).isEmpty = false := by
  have hcall : (call_tool "get_coingecko_price" (some (PyVal.str s)) fetch).result =
      Except.error (ToolError.invocationError e) := by
    simp [call_tool, hfail]
  refine ⟨?_, ?_, ?_⟩
  · simp [handleRequest, hcall, wrapError]
  · cases e <;> rfl
  · by_cases hs : s = ""
    · subst hs
      have hval : (get_coingecko_price_logic (PyVal.str "") fetch).result =
          Except.error (PyExn.valueError "Invalid or missing token_id parameter.") :=
        rfl
      rw [hval] at hfail
      injection hfail with he
      rw [← he]
      rfl
    · have hie : s.isEmpty = false := by
        cases hb : s.isEmpty with
        | false => rfl
        | true => exact absurd ((String.isEmpty_iff s).mp hb) hs
      simp [get_coingecko_price_logic, PyVal.truthy, PyVal.isString,
        PyVal.strVal, hie] at hfail
      cases hf : fetch s with
      | ok p =>
        cases p with
        | none =>
          rw [hf] at hfail
          simp at hfail
          rw [← hfail]
          exact isEmpty_append_eq_false _ _ (by decide)
        | some price =>
          rw [hf] at hfail
          simp at hfail
      | requestError msg =>
        rw [hf] at hfail
        simp at hfail
        rw [← hfail]
        exact isEmpty_append_eq_false _ _ (by decide)

/-- Witness for C6: the upstream request times out, so the logic raises
ConnectionError and the loop answers with UpstreamUnavailable. -/
theorem invoke_failure_wrapped_with_code_witness :
    handleRequest fetchTimeout
        (Request.invokeCapability 7 "get_coingecko_price"
          (some (PyVal.str "bitcoin"))) =
      Msg.errorNotification 7
        (exnCode (PyExn.connectionError "CoinGecko API request failed: timeout"))
        (exnMsg (PyExn.connectionError "CoinGecko API request failed: timeout")) ∧
    exnCode (PyExn.connectionError "CoinGecko API request failed: timeout") =
      (if (PyExn.connectionError
            "CoinGecko API request failed: timeout").isNetworkFailure then
        ErrCode.UpstreamUnavailable
      else ErrCode.InternalError) ∧
    (exnMsg (PyExn.connectionError
      "CoinGecko API request failed: timeout")).isEmpty = false :=
  invoke_failure_wrapped_with_code fetchTimeout 7 "bitcoin"
    (PyExn.connectionError "CoinGecko API request failed: timeout") rfl
